import Mathlib

/-!
Shallow embedding of `src/backend/image_hash_engine.py` (class
`ImageForensicsEngine`), the document-forensics core of the repository.

Modelling conventions:
* A perceptual fingerprint (64-bit pHash) is a `Nat < 2^64`; the Hamming
  distance `abs(h1 - h2)` of `imagehash` is popcount of bitwise XOR,
  embedded with 64 bits of fuel (so the distance is always ≤ 64).
* A file on disk is a record carrying the data the engine extracts from
  it: display name (`os.path.basename`), existence, byte size, content
  digest (SHA-256, modelled as an abstract `Nat` key), the `.pdf`
  extension flag, and — since the actual rasterizers are external
  libraries — the fingerprint each rendering backend would produce for
  it (`none` = that backend raises / produces no raster).
* The module-level import probes `FITZ_SUPPORT` / `PDF2IMAGE_SUPPORT`
  are a `Config` record.
* Python dicts keyed by digest are association lists in insertion order
  (Python 3.7+ dicts iterate in insertion order); the pHash archive dict
  keyed by `uuid.uuid4()` is a list of (id, name, hash) entries where
  fresh ids come from a counter, preserving the freshness that uuid4
  provides in the source.
* Python `round(x, 2)` is exact round-half-to-even on rationals.
-/

namespace ImageHashEngine

/-- Popcount with an explicit bit budget (`fuel`): adds the low bit and
recurses on the shifted value. -/
def popCountAux : Nat → Nat → Nat
  | 0, _ => 0
  | fuel + 1, n => popCountAux fuel (n / 2) + n % 2

/-- Function `_hamming`: the Hamming distance between two 64-bit fingerprints,
popcount of their bitwise XOR. -/
def hamming (h1 h2 : Nat) : Nat := popCountAux 64 (Nat.xor h1 h2)

/-- Round-half-to-even to the nearest integer (Python's `round`). -/
def rhe (q : ℚ) : ℤ :=
  if q - (⌊q⌋ : ℚ) < 1/2 then ⌊q⌋
  else if (1 : ℚ)/2 < q - (⌊q⌋ : ℚ) then ⌊q⌋ + 1
  else if ⌊q⌋ % 2 = 0 then ⌊q⌋ else ⌊q⌋ + 1

/-- Integer form of round-half-to-even of the fraction `n / b`, used to
evaluate `rhe` on concrete inputs. -/
def natRhe (n b : Nat) : Nat :=
  if 2 * (n % b) < b then n / b
  else if b < 2 * (n % b) then n / b + 1
  else if (n / b) % 2 = 0 then n / b else n / b + 1

/-- Python `round(q, 2)`: round-half-to-even at two decimal places. -/
def pyRound2 (q : ℚ) : ℚ := (rhe (q * 100) : ℚ) / 100

/-- Expression `round(((64 - distance) / 64) * 100, 2)` — the similarity percentage
computed from a Hamming distance in both public entry points. -/
def similarity (d : Nat) : ℚ := pyRound2 (((64 - (d : ℚ)) / 64) * 100)

/-- Function `_risk_from_hamming`: risk score and classification label from a
Hamming distance. -/
def risk_from_hamming (d : Nat) : Nat × String :=
  if d ≤ 3 then (95, "Critical Similarity — Likely Duplicate (pHash)")
  else if d ≤ 8 then (75, "High Similarity — Possible Edited Reuse (pHash)")
  else if d ≤ 15 then (40, "Moderate Similarity — Inconclusive (pHash)")
  else (5, "Unique Document (pHash)")

/-- Everything the engine observes about a submitted file. -/
structure PFile where
  basename : String
  onDisk : Bool
  size : Nat
  digest : Nat
  isPdf : Bool
  fitzRaster : Option Nat
  pdf2imageRaster : Option Nat
  pilRaster : Option Nat
  deriving Repr, DecidableEq

/-- Which optional rendering libraries imported successfully
(`FITZ_SUPPORT`, `PDF2IMAGE_SUPPORT`). -/
structure Config where
  fitzSupport : Bool
  pdf2imageSupport : Bool
  deriving Repr, DecidableEq

/-- Function `_validate_file`: returns `(ok, error_message)`. -/
def validate_file (f : PFile) : Bool × String :=
  if !f.onDisk then (false, "File not found on disk")
  else if f.size = 0 then (false, "Empty file (0 bytes) — rejected")
  else if f.size > 50 * 1024 * 1024 then
    (false, "File too large (" ++ toString (f.size / 1024 / 1024) ++ " MB > 50 MB limit)")
  else (true, "")

/-- Function `_pdf_to_pil` composed with `_generate_phash`: try fitz when
importable, then pdf2image when importable, else no raster. -/
def pdfToPil (cfg : Config) (f : PFile) : Option Nat :=
  match (if cfg.fitzSupport then f.fitzRaster else none) with
  | some h => some h
  | none => if cfg.pdf2imageSupport then f.pdf2imageRaster else none

/-- Function `_load_as_pil` composed with `_generate_phash`: the fingerprint the
engine obtains for a file, `none` when no backend yields a raster.
Image extensions and unknown extensions both go through PIL. -/
def loadAsPil (cfg : Config) (f : PFile) : Option Nat :=
  if f.isPdf then pdfToPil cfg f else f.pilRaster

/-- Engine state: threshold plus the two archives and the fresh-id
counter standing in for `uuid.uuid4()`. -/
structure Engine where
  threshold : Nat
  phashArchive : List (Nat × String × Nat)
  shaArchive : List (Nat × String)
  nextId : Nat
  deriving Repr, DecidableEq

/-- Constructor `ImageForensicsEngine(threshold)` with empty archives. -/
def mkEngine (threshold : Nat) : Engine :=
  { threshold := threshold, phashArchive := [], shaArchive := [], nextId := 0 }

/-- Constructor call `ImageForensicsEngine()` — the default threshold is 10. -/
def defaultEngine : Engine := mkEngine 10

/-- Dict lookup `sha in self._sha256_archive` / `self._sha256_archive[sha]`. -/
def lookupSha (k : Nat) : List (Nat × String) → Option String
  | [] => none
  | (k', v') :: rest => if k' = k then some v' else lookupSha k rest

/-- Dict assignment `self._sha256_archive[sha] = basename`: replace in
place if the key exists, else append. -/
def upsert (k : Nat) (v : String) : List (Nat × String) → List (Nat × String)
  | [] => [(k, v)]
  | (k', v') :: rest => if k' = k then (k, v) :: rest else (k', v') :: upsert k v rest

/-- One per-layer sub-result dict. -/
structure LayerResult where
  matched_file : Option String
  similarity_percent : ℚ
  fraud_risk_score : Nat
  classification : String
  fraud_detected : Bool
  hamming_distance : Option Nat
  deriving Repr, DecidableEq

/-- The dict `analyze_against_archive` returns. -/
structure Report where
  uploaded_file : String
  matched_file : Option String
  hamming_distance : Option Nat
  similarity_percent : ℚ
  fraud_risk_score : Nat
  classification : String
  fraud_detected : Bool
  archive_size : Nat
  method : String
  sha_layer : Option LayerResult
  phash_layer : Option LayerResult
  deriving Repr, DecidableEq

/-- The dict `analyze_files` returns. -/
structure PairReport where
  hash_1 : Nat
  hash_2 : Nat
  hamming_distance : Nat
  similarity_percent : ℚ
  fraud_risk_score : Nat
  classification : String
  fraud_detected : Bool
  deriving Repr, DecidableEq

/-- The `sha_result` dict built on a digest-archive hit. -/
def shaHit (name : String) : LayerResult :=
  { matched_file := some name
    similarity_percent := 100
    fraud_risk_score := 95
    classification := "Critical — Exact Byte Duplicate (SHA-256)"
    fraud_detected := true
    hamming_distance := some 0 }

/-- The `phash_result` dict built when the archive scan found nothing. -/
def firstUpload : LayerResult :=
  { matched_file := none
    similarity_percent := 0
    fraud_risk_score := 5
    classification := "First Upload — No Reference"
    fraud_detected := false
    hamming_distance := none }

/-- The `for aid, (aname, ahash) in self._phash_archive.items()` loop:
carries `(best_id and best_name, best_distance)` with strict-`<`
updates, starting from `(None, 64)`. -/
def scanLoop (n : Nat) :
    List (Nat × String × Nat) → Option (Nat × String) × Nat → Option (Nat × String) × Nat
  | [], acc => acc
  | e :: rest, acc =>
      scanLoop n rest
        (if hamming n e.2.2 < acc.2 then (some (e.1, e.2.1), hamming n e.2.2) else acc)

/-- The nearest-neighbor scan over the current archive. -/
def scanArchive (n : Nat) (archive : List (Nat × String × Nat)) :
    Option (Nat × String) × Nat :=
  scanLoop n archive (none, 64)

/-- The `phash_result` dict from the scan outcome. -/
def phashFinding (threshold : Nat) (scan : Option (Nat × String) × Nat) : LayerResult :=
  match scan.1 with
  | some best =>
      { matched_file := some best.2
        similarity_percent := similarity scan.2
        fraud_risk_score := (risk_from_hamming scan.2).1
        classification := (risk_from_hamming scan.2).2
        fraud_detected := decide (scan.2 ≤ threshold)
        hamming_distance := some scan.2 }
  | none => firstUpload

/-- Value of `render_method` when a raster was produced: chosen from the import
probes alone, not from the backend that actually produced the raster. -/
def renderMethodOf (cfg : Config) : String :=
  if cfg.fitzSupport then "fitz"
  else if cfg.pdf2imageSupport then "pdf2image" else "pil"

/-- The early-return dict on validation failure. -/
def validationReport (basename err : String) (archiveSize : Nat) : Report :=
  { uploaded_file := basename
    matched_file := none
    hamming_distance := none
    similarity_percent := 0
    fraud_risk_score := 0
    classification := "Validation Failed — " ++ err
    fraud_detected := false
    archive_size := archiveSize
    method := "validation_error"
    sha_layer := none
    phash_layer := none }

/-- The "both layers failed" dict. -/
def failedReport (basename : String) (archiveSize : Nat) : Report :=
  { uploaded_file := basename
    matched_file := none
    hamming_distance := none
    similarity_percent := 0
    fraud_risk_score := 10
    classification := "Analysis Incomplete — Could Not Render Document"
    fraud_detected := false
    archive_size := archiveSize
    method := "failed"
    sha_layer := none
    phash_layer := none }

/-- Merge step `max([sha_result, phash_result], key=score)` when `phash_result` is
present: Python's `max` returns the first element attaining the maximum,
so the SHA finding (listed first) wins ties. -/
def mergeBest (s : Option LayerResult) (p : LayerResult) : LayerResult :=
  match s with
  | some s => if p.fraud_risk_score ≤ s.fraud_risk_score then s else p
  | none => p

/-- Copy the winning layer's fields to the top level of the report. -/
def mergedReport (basename : String) (best : LayerResult) (archiveSize : Nat)
    (method : String) (s p : Option LayerResult) : Report :=
  { uploaded_file := basename
    matched_file := best.matched_file
    hamming_distance := best.hamming_distance
    similarity_percent := best.similarity_percent
    fraud_risk_score := best.fraud_risk_score
    classification := best.classification
    fraud_detected := best.fraud_detected
    archive_size := archiveSize
    method := method
    sha_layer := s
    phash_layer := p }

/-- Method `analyze_against_archive(file_path)`: dual-layer stateful analysis.
`max(candidates, key=...)` returns the first element attaining the
maximum, so on a risk tie the SHA layer (listed first) wins. -/
def analyze_against_archive (cfg : Config) (eng : Engine) (f : PFile) : Report × Engine :=
  let basename := f.basename
  let v := validate_file f
  if v.1 then
    let sha_result := (lookupSha f.digest eng.shaArchive).map shaHit
    let shaArchive2 := upsert f.digest basename eng.shaArchive
    match loadAsPil cfg f with
    | some newHash =>
        let scan := scanArchive newHash eng.phashArchive
        let phashArchive2 := eng.phashArchive ++ [(eng.nextId, basename, newHash)]
        let p := phashFinding eng.threshold scan
        let eng2 : Engine :=
          { threshold := eng.threshold, phashArchive := phashArchive2
            shaArchive := shaArchive2, nextId := eng.nextId + 1 }
        (mergedReport basename (mergeBest sha_result p) phashArchive2.length
          (renderMethodOf cfg) sha_result (some p), eng2)
    | none =>
        let eng2 : Engine := { eng with shaArchive := shaArchive2 }
        match sha_result with
        | some s =>
            (mergedReport basename s eng.phashArchive.length "sha256_only"
              sha_result none, eng2)
        | none => (failedReport basename eng.phashArchive.length, eng2)
  else
    (validationReport basename v.2 eng.phashArchive.length, eng)

/-- Method `analyze_files(file1_path, file2_path)`: stateless pairwise
comparison; raises when either file yields no raster. -/
def analyze_files (cfg : Config) (eng : Engine) (f1 f2 : PFile) :
    Except String PairReport × Engine :=
  match loadAsPil cfg f1, loadAsPil cfg f2 with
  | some h1, some h2 =>
      let d := hamming h1 h2
      (Except.ok
        { hash_1 := h1
          hash_2 := h2
          hamming_distance := d
          similarity_percent := similarity d
          fraud_risk_score := (risk_from_hamming d).1
          classification := (risk_from_hamming d).2
          fraud_detected := decide (d ≤ eng.threshold) }, eng)
  | _, _ => (Except.error "Could not render one or both files for comparison.", eng)

/-- A sequence of archive submissions, threading the engine state. -/
def runAll (cfg : Config) (eng : Engine) : List PFile → Engine
  | [] => eng
  | f :: rest => runAll cfg (analyze_against_archive cfg eng f).2 rest

/-- How many files in a batch pass validation and render to a raster. -/
def countRendered (cfg : Config) (files : List PFile) : Nat :=
  (files.filter (fun f => (validate_file f).1 && (loadAsPil cfg f).isSome)).length

/-- Engine well-formedness: every archived internal id predates the
fresh-id counter (uuid4 freshness in the source). -/
def Engine.WF (eng : Engine) : Prop :=
  ∀ e ∈ eng.phashArchive, e.1 < eng.nextId


/-- The six top-level fields the merge step copies from the winning
layer finding. -/
def topFields (r : Report) : Option String × Option Nat × ℚ × Nat × String × Bool :=
  (r.matched_file, r.hamming_distance, r.similarity_percent,
   r.fraud_risk_score, r.classification, r.fraud_detected)

/-- The same six fields of a layer finding, for comparison with
`topFields`. -/
def layerFields (l : LayerResult) : Option String × Option Nat × ℚ × Nat × String × Bool :=
  (l.matched_file, l.hamming_distance, l.similarity_percent,
   l.fraud_risk_score, l.classification, l.fraud_detected)

/-- Configuration with neither optional rendering library importable. -/
def cfgNone : Config := ⟨false, false⟩

/-- Configuration with both optional rendering libraries importable. -/
def cfgBoth : Config := ⟨true, true⟩

/-- Example engine whose digest archive already holds digest 7 under the
name "old.pdf". -/
def c1Eng : Engine :=
  { threshold := 10, phashArchive := [], shaArchive := [(7, "old.pdf")], nextId := 0 }

/-- Example submission: same bytes as the archived digest 7 but a
different filename; not renderable. -/
def c1File : PFile :=
  { basename := "new.pdf", onDisk := true, size := 4, digest := 7, isPdf := false
    fitzRaster := none, pdf2imageRaster := none, pilRaster := none }

/-- Example engine whose fingerprint archive holds one entry at
fingerprint 0. -/
def c2Eng : Engine :=
  { threshold := 10, phashArchive := [(0, "ref.png", 0)], shaArchive := [], nextId := 1 }

/-- Example renderable submission whose fingerprint is 1 (at Hamming
distance 1 from the archived fingerprint 0). -/
def c2File : PFile :=
  { basename := "q.png", onDisk := true, size := 4, digest := 3, isPdf := false
    fitzRaster := none, pdf2imageRaster := none, pilRaster := some 1 }

/-- Example engine whose single archived fingerprint is the bitwise
complement of 0 (all 64 bits set). -/
def c2xEng : Engine :=
  { threshold := 10, phashArchive := [(0, "other.png", 2 ^ 64 - 1)], shaArchive := []
    nextId := 1 }

/-- Example renderable submission whose fingerprint is 0, at Hamming
distance exactly 64 from every entry of `c2xEng`. -/
def c2xFile : PFile :=
  { basename := "far.png", onDisk := true, size := 4, digest := 9, isPdf := false
    fitzRaster := none, pdf2imageRaster := none, pilRaster := some 0 }

/-- Example engine holding digest 5 and fingerprint 3, both under the
name "a.png". -/
def c3Eng : Engine :=
  { threshold := 10, phashArchive := [(0, "a.png", 3)], shaArchive := [(5, "a.png")]
    nextId := 1 }

/-- Example submission hitting both layers of `c3Eng` (digest 5,
fingerprint 3). -/
def c3File : PFile :=
  { basename := "b.png", onDisk := true, size := 4, digest := 5, isPdf := false
    fitzRaster := none, pdf2imageRaster := none, pilRaster := some 3 }

/-- Example zero-byte submission. -/
def c5File : PFile :=
  { basename := "empty.png", onDisk := true, size := 0, digest := 1, isPdf := false
    fitzRaster := none, pdf2imageRaster := none, pilRaster := some 2 }

/-- Example valid submission that no backend can render, with a digest
absent from `defaultEngine`'s empty archive. -/
def c6File : PFile :=
  { basename := "broken.pdf", onDisk := true, size := 4, digest := 2, isPdf := true
    fitzRaster := none, pdf2imageRaster := none, pilRaster := none }

/-- Example renderable file with fingerprint 0. -/
def c7FileA : PFile :=
  { basename := "a.png", onDisk := true, size := 4, digest := 11, isPdf := false
    fitzRaster := none, pdf2imageRaster := none, pilRaster := some 0 }

/-- Example renderable file with fingerprint 3. -/
def c7FileB : PFile :=
  { basename := "b.png", onDisk := true, size := 4, digest := 12, isPdf := false
    fitzRaster := none, pdf2imageRaster := none, pilRaster := some 3 }

/-- Example renderable submission with fingerprint 9. -/
def c8File : PFile :=
  { basename := "x.png", onDisk := true, size := 4, digest := 13, isPdf := false
    fitzRaster := none, pdf2imageRaster := none, pilRaster := some 9 }

/-- Example PDF for which the primary (fitz) renderer fails and the
fallback (pdf2image) rasterizer succeeds with fingerprint 4. -/
def c10File : PFile :=
  { basename := "scan.pdf", onDisk := true, size := 4, digest := 14, isPdf := true
    fitzRaster := none, pdf2imageRaster := some 4, pilRaster := none }

/-!  Helper lemmas  -/

lemma rhe_natCast_div (n b : ℕ) (hb : 0 < b) : rhe ((n : ℚ) / b) = (natRhe n b : ℤ) := by
  have hb0 : (0:ℚ) < (b:ℚ) := by exact_mod_cast hb
  have hfl : ⌊(n : ℚ) / b⌋ = ((n / b : ℕ) : ℤ) := Rat.floor_natCast_div_natCast n b
  have key : (b:ℚ) * ((n / b : ℕ):ℚ) + ((n % b : ℕ):ℚ) = (n:ℚ) := by
    exact_mod_cast Nat.div_add_mod n b
  have hfr2 : (n:ℚ)/b - ((⌊(n:ℚ)/b⌋ : ℤ):ℚ) = ((n % b : ℕ):ℚ)/b := by
    rw [hfl, Int.cast_natCast]
    field_simp
    linarith [key]
  have hlt : (((n % b : ℕ) : ℚ) / b < 1/2) ↔ (2 * (n % b) < b) := by
    rw [div_lt_div_iff₀ hb0 (by norm_num : (0:ℚ) < 2)]
    rw [one_mul, mul_comm]
    exact_mod_cast Iff.rfl
  have hgt : ((1:ℚ)/2 < ((n % b : ℕ) : ℚ) / b) ↔ (b < 2 * (n % b)) := by
    rw [div_lt_div_iff₀ (by norm_num : (0:ℚ) < 2) hb0]
    rw [one_mul, mul_comm]
    exact_mod_cast Iff.rfl
  have c1 : ((n:ℚ)/b - ((⌊(n:ℚ)/b⌋ : ℤ):ℚ) < 1/2) ↔ (2 * (n % b) < b) := by
    rw [hfr2]; exact hlt
  have c2 : ((1:ℚ)/2 < (n:ℚ)/b - ((⌊(n:ℚ)/b⌋ : ℤ):ℚ)) ↔ (b < 2 * (n % b)) := by
    rw [hfr2]; exact hgt
  have c3 : (⌊(n:ℚ)/b⌋ % 2 = 0) ↔ ((n / b) % 2 = 0) := by
    rw [hfl]; omega
  unfold rhe natRhe
  by_cases hA : 2 * (n % b) < b
  · rw [if_pos (c1.mpr hA), if_pos hA, hfl]
  · rw [if_neg (fun h => hA (c1.mp h)), if_neg hA]
    by_cases hB : b < 2 * (n % b)
    · rw [if_pos (c2.mpr hB), if_pos hB, hfl]
      push_cast
      ring
    · rw [if_neg (fun h => hB (c2.mp h)), if_neg hB]
      by_cases hC : (n / b) % 2 = 0
      · rw [if_pos (c3.mpr hC), if_pos hC, hfl]
      · rw [if_neg (fun h => hC (c3.mp h)), if_neg hC, hfl]
        push_cast
        ring

lemma similarity_eq (d : Nat) (hd : d ≤ 64) :
    similarity d = ((natRhe ((64 - d) * 10000) 64 : ℕ) : ℚ) / 100 := by
  have harg : ((((64:ℚ) - (d:ℚ)) / 64) * 100) * 100 = (((64 - d) * 10000 : ℕ) : ℚ) / ((64 : ℕ) : ℚ) := by
    push_cast [Nat.cast_sub hd]
    ring
  unfold similarity pyRound2
  rw [harg, rhe_natCast_div ((64 - d) * 10000) 64 (by norm_num), Int.cast_natCast]

lemma scanLoop_snd_le (n : Nat) (l : List (Nat × String × Nat))
    (acc : Option (Nat × String) × Nat) : (scanLoop n l acc).2 ≤ acc.2 := by
  induction l generalizing acc with
  | nil => exact le_refl _
  | cons e rest ih =>
      unfold scanLoop
      by_cases h : hamming n e.2.2 < acc.2
      · rw [if_pos h]
        exact le_trans (ih _) (le_of_lt h)
      · rw [if_neg h]
        exact ih _

lemma scanLoop_min (n : Nat) (l : List (Nat × String × Nat))
    (acc : Option (Nat × String) × Nat) :
    ∀ e ∈ l, (scanLoop n l acc).2 ≤ hamming n e.2.2 := by
  induction l generalizing acc with
  | nil => intro e he; cases he
  | cons e rest ih =>
      intro e' he'
      unfold scanLoop
      rcases List.mem_cons.mp he' with rfl | hmem
      · by_cases h : hamming n e'.2.2 < acc.2
        · rw [if_pos h]
          exact scanLoop_snd_le n rest _
        · rw [if_neg h]
          exact le_trans (scanLoop_snd_le n rest _) (not_lt.mp h)
      · by_cases h : hamming n e.2.2 < acc.2
        · rw [if_pos h]; exact ih _ e' hmem
        · rw [if_neg h]; exact ih _ e' hmem

lemma scanLoop_attain (n : Nat) (l : List (Nat × String × Nat))
    (acc : Option (Nat × String) × Nat) :
    scanLoop n l acc = acc ∨
      ∃ e ∈ l, (scanLoop n l acc).1 = some (e.1, e.2.1) ∧
        (scanLoop n l acc).2 = hamming n e.2.2 := by
  induction l generalizing acc with
  | nil => exact Or.inl rfl
  | cons e rest ih =>
      unfold scanLoop
      by_cases h : hamming n e.2.2 < acc.2
      · rw [if_pos h]
        rcases ih (some (e.1, e.2.1), hamming n e.2.2) with heq | ⟨e', hmem, h1, h2⟩
        · exact Or.inr ⟨e, List.mem_cons_self .., by rw [heq]; exact ⟨rfl, rfl⟩⟩
        · exact Or.inr ⟨e', List.mem_cons_of_mem _ hmem, h1, h2⟩
      · rw [if_neg h]
        rcases ih acc with heq | ⟨e', hmem, h1, h2⟩
        · exact Or.inl heq
        · exact Or.inr ⟨e', List.mem_cons_of_mem _ hmem, h1, h2⟩


lemma analyze_invalid (cfg : Config) (eng : Engine) (f : PFile)
    (hv : (validate_file f).1 = false) :
    analyze_against_archive cfg eng f =
      (validationReport f.basename (validate_file f).2 eng.phashArchive.length, eng) := by
  simp [analyze_against_archive, hv]

lemma analyze_rendered (cfg : Config) (eng : Engine) (f : PFile) (h : Nat)
    (hv : (validate_file f).1 = true) (hr : loadAsPil cfg f = some h) :
    analyze_against_archive cfg eng f =
      (mergedReport f.basename
        (mergeBest ((lookupSha f.digest eng.shaArchive).map shaHit)
          (phashFinding eng.threshold (scanArchive h eng.phashArchive)))
        (eng.phashArchive.length + 1) (renderMethodOf cfg)
        ((lookupSha f.digest eng.shaArchive).map shaHit)
        (some (phashFinding eng.threshold (scanArchive h eng.phashArchive))),
       { threshold := eng.threshold
         phashArchive := eng.phashArchive ++ [(eng.nextId, f.basename, h)]
         shaArchive := upsert f.digest f.basename eng.shaArchive
         nextId := eng.nextId + 1 }) := by
  simp [analyze_against_archive, hv, hr]

lemma analyze_norender_hit (cfg : Config) (eng : Engine) (f : PFile) (name : String)
    (hv : (validate_file f).1 = true) (hr : loadAsPil cfg f = none)
    (hl : lookupSha f.digest eng.shaArchive = some name) :
    analyze_against_archive cfg eng f =
      (mergedReport f.basename (shaHit name) eng.phashArchive.length "sha256_only"
        (some (shaHit name)) none,
       { eng with shaArchive := upsert f.digest f.basename eng.shaArchive }) := by
  simp [analyze_against_archive, hv, hr, hl]

lemma analyze_norender_miss (cfg : Config) (eng : Engine) (f : PFile)
    (hv : (validate_file f).1 = true) (hr : loadAsPil cfg f = none)
    (hl : lookupSha f.digest eng.shaArchive = none) :
    analyze_against_archive cfg eng f =
      (failedReport f.basename eng.phashArchive.length,
       { eng with shaArchive := upsert f.digest f.basename eng.shaArchive }) := by
  simp [analyze_against_archive, hv, hr, hl]

lemma lookupSha_upsert (k : Nat) (v : String) (l : List (Nat × String)) :
    lookupSha k (upsert k v l) = some v := by
  induction l with
  | nil => simp [upsert, lookupSha]
  | cons e rest ih =>
      by_cases h : e.1 = k
      · simp [upsert, lookupSha, h]
      · simp [upsert, lookupSha, h, ih]

lemma validate_file_false_iff (f : PFile) :
    (validate_file f).1 = false ↔
      (f.onDisk = false ∨ f.size = 0 ∨ f.size > 50 * 1024 * 1024) := by
  unfold validate_file
  cases hd : f.onDisk <;> by_cases h0 : f.size = 0 <;>
    by_cases hbig : f.size > 50 * 1024 * 1024 <;>
      simp [hd, h0, hbig]

lemma natRhe_mono :
    ∀ d1 < 65, ∀ d2 < 65, d1 ≤ d2 →
      natRhe ((64 - d2) * 10000) 64 ≤ natRhe ((64 - d1) * 10000) 64 := by decide

lemma analyze_phash_length (cfg : Config) (eng : Engine) (f : PFile) :
    (analyze_against_archive cfg eng f).2.phashArchive.length =
      eng.phashArchive.length +
        (if ((validate_file f).1 && (loadAsPil cfg f).isSome) = true then 1 else 0) := by
  cases hv : (validate_file f).1 with
  | false => rw [analyze_invalid cfg eng f hv]; simp
  | true =>
      cases hr : loadAsPil cfg f with
      | some h => rw [analyze_rendered cfg eng f h hv hr]; simp
      | none =>
          cases hl : lookupSha f.digest eng.shaArchive with
          | some name => rw [analyze_norender_hit cfg eng f name hv hr hl]; simp
          | none => rw [analyze_norender_miss cfg eng f hv hr hl]; simp

lemma runAll_length (cfg : Config) (files : List PFile) :
    ∀ eng : Engine, (runAll cfg eng files).phashArchive.length =
      eng.phashArchive.length + countRendered cfg files := by
  induction files with
  | nil => intro eng; simp [runAll, countRendered]
  | cons f rest ih =>
      intro eng
      unfold runAll
      rw [ih]
      unfold countRendered
      rw [analyze_phash_length]
      by_cases h : ((validate_file f).1 && (loadAsPil cfg f).isSome) = true
      · simp [List.filter, h, countRendered]
        omega
      · simp [List.filter, h, countRendered]

/-!  Claim theorems  -/

/-- C4: the risk classifier is a pure function of the Hamming distance with
closed, non-overlapping ranges — 0–3 ↦ 95, 4–8 ↦ 75, 9–15 ↦ 40,
16–64 ↦ 5 — and in particular the stated boundary values. -/
theorem c4_risk_classifier :
    (∀ d : Nat, d ≤ 3 → (risk_from_hamming d).1 = 95) ∧
    (∀ d : Nat, 4 ≤ d → d ≤ 8 → (risk_from_hamming d).1 = 75) ∧
    (∀ d : Nat, 9 ≤ d → d ≤ 15 → (risk_from_hamming d).1 = 40) ∧
    (∀ d : Nat, 16 ≤ d → d ≤ 64 → (risk_from_hamming d).1 = 5) ∧
    (risk_from_hamming 3).1 = 95 ∧ (risk_from_hamming 4).1 = 75 ∧
    (risk_from_hamming 8).1 = 75 ∧ (risk_from_hamming 9).1 = 40 ∧
    (risk_from_hamming 15).1 = 40 ∧ (risk_from_hamming 16).1 = 5 := by
  refine ⟨?_, ?_, ?_, ?_, by decide, by decide, by decide, by decide, by decide, by decide⟩
  · intro d hd
    unfold risk_from_hamming
    rw [if_pos hd]
  · intro d h4 h8
    unfold risk_from_hamming
    rw [if_neg (by omega), if_pos h8]
  · intro d h9 h15
    unfold risk_from_hamming
    rw [if_neg (by omega), if_neg (by omega), if_pos h15]
  · intro d h16 _
    unfold risk_from_hamming
    rw [if_neg (by omega), if_neg (by omega), if_neg (by omega)]

/-- C4 witness: the classifier theorem applied at concrete inputs in each
range. -/
theorem c4_witness :
    (risk_from_hamming 2).1 = 95 ∧ (risk_from_hamming 5).1 = 75 ∧
    (risk_from_hamming 12).1 = 40 ∧ (risk_from_hamming 30).1 = 5 :=
  ⟨c4_risk_classifier.1 2 (by decide),
   c4_risk_classifier.2.1 5 (by decide) (by decide),
   c4_risk_classifier.2.2.1 12 (by decide) (by decide),
   c4_risk_classifier.2.2.2.1 30 (by decide) (by decide)⟩

/-- C5: an input fails validation exactly when it is missing, empty, or
larger than 50 MiB, and then the call returns the terminal validation
finding — risk 0, not fraud, "Validation Failed — ‹reason›" classification,
neither layer invoked — and leaves the engine (both archives) unchanged. -/
theorem c5_validation_failure (cfg : Config) (eng : Engine) (f : PFile)
    (hv : (validate_file f).1 = false) :
    ((validate_file f).1 = false ↔
      (f.onDisk = false ∨ f.size = 0 ∨ f.size > 50 * 1024 * 1024)) ∧
    (analyze_against_archive cfg eng f).1.fraud_risk_score = 0 ∧
    (analyze_against_archive cfg eng f).1.fraud_detected = false ∧
    (analyze_against_archive cfg eng f).1.classification =
      "Validation Failed — " ++ (validate_file f).2 ∧
    (analyze_against_archive cfg eng f).1.method = "validation_error" ∧
    (analyze_against_archive cfg eng f).1.sha_layer = none ∧
    (analyze_against_archive cfg eng f).1.phash_layer = none ∧
    (analyze_against_archive cfg eng f).1.archive_size = eng.phashArchive.length ∧
    (analyze_against_archive cfg eng f).2 = eng := by
  rw [analyze_invalid cfg eng f hv]
  exact ⟨validate_file_false_iff f, rfl, rfl, rfl, rfl, rfl, rfl, rfl, rfl⟩

/-- C5 witness: the validation theorem applied to a zero-byte file on the
default engine. -/
theorem c5_witness :
    (analyze_against_archive cfgNone defaultEngine c5File).1.fraud_risk_score = 0 ∧
    (analyze_against_archive cfgNone defaultEngine c5File).1.fraud_detected = false ∧
    (analyze_against_archive cfgNone defaultEngine c5File).2 = defaultEngine :=
  ⟨(c5_validation_failure cfgNone defaultEngine c5File rfl).2.1,
   (c5_validation_failure cfgNone defaultEngine c5File rfl).2.2.1,
   (c5_validation_failure cfgNone defaultEngine c5File rfl).2.2.2.2.2.2.2.2⟩

/-- C1 counterexample: on an exact digest hit the finding's label carries a
" (SHA-256)" suffix, so it is not the claim's exact label
"Critical — Exact Byte Duplicate". -/
theorem c1_counterexample :
    (analyze_against_archive cfgNone c1Eng c1File).1.fraud_risk_score = 95 ∧
    (analyze_against_archive cfgNone c1Eng c1File).1.matched_file = some "old.pdf" ∧
    (analyze_against_archive cfgNone c1Eng c1File).1.classification =
      "Critical — Exact Byte Duplicate (SHA-256)" ∧
    "Critical — Exact Byte Duplicate (SHA-256)" ≠ "Critical — Exact Byte Duplicate" := by
  refine ⟨rfl, rfl, rfl, by decide⟩

/-- C1 (amended): for every submission passing validation, a digest-archive
hit yields the SHA layer finding with risk 95, label
"Critical — Exact Byte Duplicate (SHA-256)", hamming_distance 0, similarity
100, fraud_detected true and matched_file the archived submitter name; and
hit or miss, the digest archive entry is upserted to the current submitter's
display name (last writer wins). -/
theorem c1_digest_layer (cfg : Config) (eng : Engine) (f : PFile)
    (hv : (validate_file f).1 = true) :
    (∀ name, lookupSha f.digest eng.shaArchive = some name →
      (analyze_against_archive cfg eng f).1.sha_layer = some
        { matched_file := some name
          similarity_percent := 100
          fraud_risk_score := 95
          classification := "Critical — Exact Byte Duplicate (SHA-256)"
          fraud_detected := true
          hamming_distance := some 0 }) ∧
    lookupSha f.digest (analyze_against_archive cfg eng f).2.shaArchive =
      some f.basename := by
  constructor
  · intro name hname
    cases hr : loadAsPil cfg f with
    | some h =>
        rw [analyze_rendered cfg eng f h hv hr]
        simp [mergedReport, hname, shaHit]
    | none =>
        rw [analyze_norender_hit cfg eng f name hv hr hname]
        simp [mergedReport, shaHit]
  · cases hr : loadAsPil cfg f with
    | some h =>
        rw [analyze_rendered cfg eng f h hv hr]
        exact lookupSha_upsert ..
    | none =>
        cases hl : lookupSha f.digest eng.shaArchive with
        | some name =>
            rw [analyze_norender_hit cfg eng f name hv hr hl]
            exact lookupSha_upsert ..
        | none =>
            rw [analyze_norender_miss cfg eng f hv hr hl]
            exact lookupSha_upsert ..

/-- C1 witness: the digest-layer theorem applied to a byte-identical
resubmission under a different filename. -/
theorem c1_witness :
    (analyze_against_archive cfgNone c1Eng c1File).1.sha_layer = some
      { matched_file := some "old.pdf"
        similarity_percent := 100
        fraud_risk_score := 95
        classification := "Critical — Exact Byte Duplicate (SHA-256)"
        fraud_detected := true
        hamming_distance := some 0 } ∧
    lookupSha c1File.digest
      (analyze_against_archive cfgNone c1Eng c1File).2.shaArchive = some "new.pdf" :=
  ⟨(c1_digest_layer cfgNone c1Eng c1File rfl).1 "old.pdf" rfl,
   (c1_digest_layer cfgNone c1Eng c1File rfl).2⟩

/-- C6 counterexample: in the degraded render-failed, digest-miss case the
report's method field is "failed", not the source's digest-only marker
"sha256_only" that the claim asserts. -/
theorem c6_counterexample :
    (analyze_against_archive cfgNone (mkEngine 10) c6File).1.classification =
      "Analysis Incomplete — Could Not Render Document" ∧
    (analyze_against_archive cfgNone (mkEngine 10) c6File).1.method = "failed" ∧
    "failed" ≠ "sha256_only" := by
  refine ⟨rfl, rfl, by decide⟩

/-- C6 (amended): when a validated document cannot be rendered and its digest
missed the digest archive, the call returns the degraded finding — risk 10,
classification "Analysis Incomplete — Could Not Render Document",
fraud_detected false — with the method field set to "failed". -/
theorem c6_degraded (cfg : Config) (eng : Engine) (f : PFile)
    (hv : (validate_file f).1 = true) (hr : loadAsPil cfg f = none)
    (hl : lookupSha f.digest eng.shaArchive = none) :
    (analyze_against_archive cfg eng f).1.fraud_risk_score = 10 ∧
    (analyze_against_archive cfg eng f).1.classification =
      "Analysis Incomplete — Could Not Render Document" ∧
    (analyze_against_archive cfg eng f).1.fraud_detected = false ∧
    (analyze_against_archive cfg eng f).1.method = "failed" := by
  rw [analyze_norender_miss cfg eng f hv hr hl]
  exact ⟨rfl, rfl, rfl, rfl⟩

/-- C6 witness: the degraded-finding theorem applied to an unrenderable PDF
on an empty engine. -/
theorem c6_witness :
    (analyze_against_archive cfgNone (mkEngine 10) c6File).1.fraud_risk_score = 10 ∧
    (analyze_against_archive cfgNone (mkEngine 10) c6File).1.fraud_detected = false :=
  ⟨(c6_degraded cfgNone (mkEngine 10) c6File rfl rfl rfl).1,
   (c6_degraded cfgNone (mkEngine 10) c6File rfl rfl rfl).2.2.1⟩

/-- C10: whenever a raster was produced, the report's method field is
computed from the library import probes alone — "fitz" whenever the primary
library is importable, regardless of which backend actually produced the
raster. -/
theorem c10_method_from_imports (cfg : Config) (eng : Engine) (f : PFile) (h : Nat)
    (hv : (validate_file f).1 = true) (hr : loadAsPil cfg f = some h) :
    (analyze_against_archive cfg eng f).1.method = renderMethodOf cfg ∧
    (cfg.fitzSupport = true → (analyze_against_archive cfg eng f).1.method = "fitz") := by
  rw [analyze_rendered cfg eng f h hv hr]
  refine ⟨rfl, fun hf => ?_⟩
  simp [mergedReport, renderMethodOf, hf]

/-- C10 witness: a PDF whose fitz rendering fails and whose raster comes
from the pdf2image fallback is still reported with method "fitz". -/
theorem c10_witness :
    c10File.fitzRaster = none ∧
    loadAsPil cfgBoth c10File = some 4 ∧
    (analyze_against_archive cfgBoth (mkEngine 10) c10File).1.method = "fitz" :=
  ⟨rfl, rfl, (c10_method_from_imports cfgBoth (mkEngine 10) c10File 4 rfl rfl).2 rfl⟩

/-- C7: the pairwise operation errors exactly when at least one input cannot
be rasterized; otherwise it returns the Hamming distance of the two
fingerprints, its similarity percentage and the classifier's risk and label;
and in every case it neither mutates the engine nor reads anything of it
beyond the configured threshold. -/
theorem c7_analyze_files (cfg : Config) (eng : Engine) (f1 f2 : PFile) :
    ((∃ msg, (analyze_files cfg eng f1 f2).1 = Except.error msg) ↔
      (loadAsPil cfg f1 = none ∨ loadAsPil cfg f2 = none)) ∧
    (∀ h1 h2, loadAsPil cfg f1 = some h1 → loadAsPil cfg f2 = some h2 →
      (analyze_files cfg eng f1 f2).1 = Except.ok
        { hash_1 := h1
          hash_2 := h2
          hamming_distance := hamming h1 h2
          similarity_percent := similarity (hamming h1 h2)
          fraud_risk_score := (risk_from_hamming (hamming h1 h2)).1
          classification := (risk_from_hamming (hamming h1 h2)).2
          fraud_detected := decide (hamming h1 h2 ≤ eng.threshold) }) ∧
    (analyze_files cfg eng f1 f2).2 = eng ∧
    (∀ eng2 : Engine, eng2.threshold = eng.threshold →
      (analyze_files cfg eng2 f1 f2).1 = (analyze_files cfg eng f1 f2).1) := by
  refine ⟨?_, ?_, ?_, ?_⟩
  · cases hr1 : loadAsPil cfg f1 with
    | none =>
        simp [analyze_files, hr1]
    | some h1 =>
        cases hr2 : loadAsPil cfg f2 with
        | none => simp [analyze_files, hr1, hr2]
        | some h2 => simp [analyze_files, hr1, hr2]
  · intro h1 h2 hr1 hr2
    simp [analyze_files, hr1, hr2]
  · cases hr1 : loadAsPil cfg f1 with
    | none => simp [analyze_files, hr1]
    | some h1 =>
        cases hr2 : loadAsPil cfg f2 with
        | none => simp [analyze_files, hr1, hr2]
        | some h2 => simp [analyze_files, hr1, hr2]
  · intro eng2 ht
    cases hr1 : loadAsPil cfg f1 with
    | none => simp [analyze_files, hr1]
    | some h1 =>
        cases hr2 : loadAsPil cfg f2 with
        | none => simp [analyze_files, hr1, hr2]
        | some h2 => simp [analyze_files, hr1, hr2, ht]

/-- C7 witness: the pairwise theorem applied to two renderable files with
fingerprints 0 and 3, and to a pair with an unrenderable member. -/
theorem c7_witness :
    (analyze_files cfgNone defaultEngine c7FileA c7FileB).1 = Except.ok
      { hash_1 := 0
        hash_2 := 3
        hamming_distance := hamming 0 3
        similarity_percent := similarity (hamming 0 3)
        fraud_risk_score := (risk_from_hamming (hamming 0 3)).1
        classification := (risk_from_hamming (hamming 0 3)).2
        fraud_detected := decide (hamming 0 3 ≤ defaultEngine.threshold) } ∧
    (∃ msg, (analyze_files cfgNone defaultEngine c7FileA c6File).1 = Except.error msg) :=
  ⟨(c7_analyze_files cfgNone defaultEngine c7FileA c7FileB).2.1 0 3 rfl rfl,
   ((c7_analyze_files cfgNone defaultEngine c7FileA c6File).1).mpr (Or.inr rfl)⟩

lemma scanArchive_min (n : Nat) (l : List (Nat × String × Nat)) :
    ∀ e ∈ l, (scanArchive n l).2 ≤ hamming n e.2.2 :=
  scanLoop_min n l (none, 64)

lemma scanArchive_attain (n : Nat) (l : List (Nat × String × Nat)) :
    scanArchive n l = (none, 64) ∨
      ∃ e ∈ l, (scanArchive n l).1 = some (e.1, e.2.1) ∧
        (scanArchive n l).2 = hamming n e.2.2 :=
  scanLoop_attain n l (none, 64)

lemma phashFinding_some (t : Nat) (scan : Option (Nat × String) × Nat) (i : Nat)
    (name : String) (h1 : scan.1 = some (i, name)) :
    phashFinding t scan =
      { matched_file := some name
        similarity_percent := similarity scan.2
        fraud_risk_score := (risk_from_hamming scan.2).1
        classification := (risk_from_hamming scan.2).2
        fraud_detected := decide (scan.2 ≤ t)
        hamming_distance := some scan.2 } := by
  unfold phashFinding
  rw [h1]

lemma phashFinding_none (t : Nat) (scan : Option (Nat × String) × Nat)
    (h1 : scan.1 = none) : phashFinding t scan = firstUpload := by
  unfold phashFinding
  rw [h1]

/-- C2 counterexample: a nonempty archive whose only entry is at Hamming
distance exactly 64 from the new fingerprint makes the fingerprint layer
report the First Upload finding with a null distance instead of the minimum
distance 64 and the matching entry's name. -/
theorem c2_counterexample :
    c2xEng.phashArchive ≠ [] ∧
    (validate_file c2xFile).1 = true ∧
    loadAsPil cfgNone c2xFile = some 0 ∧
    (∀ e ∈ c2xEng.phashArchive, hamming 0 e.2.2 = 64) ∧
    (analyze_against_archive cfgNone c2xEng c2xFile).1.phash_layer = some firstUpload ∧
    firstUpload.hamming_distance = none ∧ firstUpload.matched_file = none := by
  refine ⟨by decide, rfl, rfl, by decide, rfl, rfl, rfl⟩

/-- C2 (amended): for a validated, renderable submission against an archive
holding at least one entry at Hamming distance < 64 from the new
fingerprint, the fingerprint-layer finding reports the minimum Hamming
distance over all pre-existing entries and the display name of an entry
attaining that minimum. -/
theorem c2_nearest_neighbor (cfg : Config) (eng : Engine) (f : PFile) (h : Nat)
    (hv : (validate_file f).1 = true) (hr : loadAsPil cfg f = some h)
    (hex : ∃ e ∈ eng.phashArchive, hamming h e.2.2 < 64) :
    ∃ e ∈ eng.phashArchive,
      (analyze_against_archive cfg eng f).1.phash_layer = some
        { matched_file := some e.2.1
          similarity_percent := similarity (hamming h e.2.2)
          fraud_risk_score := (risk_from_hamming (hamming h e.2.2)).1
          classification := (risk_from_hamming (hamming h e.2.2)).2
          fraud_detected := decide (hamming h e.2.2 ≤ eng.threshold)
          hamming_distance := some (hamming h e.2.2) } ∧
      (∀ e2 ∈ eng.phashArchive, hamming h e.2.2 ≤ hamming h e2.2.2) := by
  obtain ⟨e0, hmem0, hlt0⟩ := hex
  have hsmall : (scanArchive h eng.phashArchive).2 < 64 :=
    lt_of_le_of_lt (scanArchive_min h eng.phashArchive e0 hmem0) hlt0
  rcases scanArchive_attain h eng.phashArchive with heq | ⟨e, hmem, h1, h2⟩
  · rw [heq] at hsmall
    exact absurd hsmall (by norm_num)
  · refine ⟨e, hmem, ?_, ?_⟩
    · rw [analyze_rendered cfg eng f h hv hr]
      simp only [mergedReport]
      rw [phashFinding_some eng.threshold _ e.1 e.2.1 h1, h2]
    · intro e2 hmem2
      rw [← h2]
      exact scanArchive_min h eng.phashArchive e2 hmem2

/-- C2 witness: the nearest-neighbor theorem applied to a fingerprint at
distance 1 from the single archived entry. -/
theorem c2_witness :
    ∃ e ∈ c2Eng.phashArchive,
      (analyze_against_archive cfgNone c2Eng c2File).1.phash_layer = some
        { matched_file := some e.2.1
          similarity_percent := similarity (hamming 1 e.2.2)
          fraud_risk_score := (risk_from_hamming (hamming 1 e.2.2)).1
          classification := (risk_from_hamming (hamming 1 e.2.2)).2
          fraud_detected := decide (hamming 1 e.2.2 ≤ c2Eng.threshold)
          hamming_distance := some (hamming 1 e.2.2) } ∧
      (∀ e2 ∈ c2Eng.phashArchive, hamming 1 e.2.2 ≤ hamming 1 e2.2.2) :=
  c2_nearest_neighbor cfgNone c2Eng c2File 1 rfl rfl (by decide)

/-- C3: when both layer findings are present the report's top-level fields
are copied from the finding with the strictly higher risk score, the digest
finding winning exact ties; when only one finding is present it is used. -/
theorem c3_merge (cfg : Config) (eng : Engine) (f : PFile) (s p : LayerResult) :
    ((analyze_against_archive cfg eng f).1.sha_layer = some s →
      (analyze_against_archive cfg eng f).1.phash_layer = some p →
      ((p.fraud_risk_score ≤ s.fraud_risk_score →
          topFields (analyze_against_archive cfg eng f).1 = layerFields s) ∧
       (s.fraud_risk_score < p.fraud_risk_score →
          topFields (analyze_against_archive cfg eng f).1 = layerFields p))) ∧
    ((analyze_against_archive cfg eng f).1.sha_layer = some s →
      (analyze_against_archive cfg eng f).1.phash_layer = none →
      topFields (analyze_against_archive cfg eng f).1 = layerFields s) ∧
    ((analyze_against_archive cfg eng f).1.sha_layer = none →
      (analyze_against_archive cfg eng f).1.phash_layer = some p →
      topFields (analyze_against_archive cfg eng f).1 = layerFields p) := by
  refine ⟨fun hs hp => ?_, fun hs hp => ?_, fun hs hp => ?_⟩
  · cases hv : (validate_file f).1 with
    | false =>
        rw [analyze_invalid cfg eng f hv] at hs
        exact absurd hs (by simp [validationReport])
    | true =>
        cases hr : loadAsPil cfg f with
        | some h =>
            rw [analyze_rendered cfg eng f h hv hr] at hs hp
            simp only [mergedReport] at hs hp
            injection hp with hp2
            rw [analyze_rendered cfg eng f h hv hr]
            constructor
            · intro hle
              simp only [topFields, mergedReport, mergeBest, hs]
              rw [if_pos (hp2 ▸ hle)]
              rfl
            · intro hgt
              simp only [topFields, mergedReport, mergeBest, hs]
              rw [if_neg (not_le.mpr (hp2 ▸ hgt)), hp2]
              rfl
        | none =>
            cases hl : lookupSha f.digest eng.shaArchive with
            | some name =>
                rw [analyze_norender_hit cfg eng f name hv hr hl] at hp
                exact absurd hp (by simp [mergedReport])
            | none =>
                rw [analyze_norender_miss cfg eng f hv hr hl] at hp
                exact absurd hp (by simp [failedReport])
  · cases hv : (validate_file f).1 with
    | false =>
        rw [analyze_invalid cfg eng f hv] at hs
        exact absurd hs (by simp [validationReport])
    | true =>
        cases hr : loadAsPil cfg f with
        | some h =>
            rw [analyze_rendered cfg eng f h hv hr] at hp
            exact absurd hp (by simp [mergedReport])
        | none =>
            cases hl : lookupSha f.digest eng.shaArchive with
            | some name =>
                rw [analyze_norender_hit cfg eng f name hv hr hl] at hs
                simp only [mergedReport] at hs
                injection hs with hs2
                rw [analyze_norender_hit cfg eng f name hv hr hl]
                simp only [topFields, mergedReport, hs2]
                rfl
            | none =>
                rw [analyze_norender_miss cfg eng f hv hr hl] at hs
                exact absurd hs (by simp [failedReport])
  · cases hv : (validate_file f).1 with
    | false =>
        rw [analyze_invalid cfg eng f hv] at hp
        exact absurd hp (by simp [validationReport])
    | true =>
        cases hr : loadAsPil cfg f with
        | some h =>
            rw [analyze_rendered cfg eng f h hv hr] at hs hp
            simp only [mergedReport] at hs hp
            injection hp with hp2
            rw [analyze_rendered cfg eng f h hv hr]
            simp only [topFields, mergedReport, mergeBest, hs, hp2]
            rfl
        | none =>
            cases hl : lookupSha f.digest eng.shaArchive with
            | some name =>
                rw [analyze_norender_hit cfg eng f name hv hr hl] at hs
                exact absurd hs (by simp [mergedReport])
            | none =>
                rw [analyze_norender_miss cfg eng f hv hr hl] at hp
                exact absurd hp (by simp [failedReport])
  
/-- C3 witness: the merge theorem applied where both layers fire with equal
risk 95 — the digest finding's fields are copied. -/
theorem c3_witness :
    topFields (analyze_against_archive cfgNone c3Eng c3File).1 =
      layerFields (shaHit "a.png") :=
  ((c3_merge cfgNone c3Eng c3File (shaHit "a.png")
      (phashFinding 10 (scanArchive 3 [(0, "a.png", 3)]))).1 rfl rfl).1 (by decide)

lemma analyze_phash_cases (cfg : Config) (eng : Engine) (f : PFile) :
    ((analyze_against_archive cfg eng f).2.phashArchive = eng.phashArchive ∧
      (analyze_against_archive cfg eng f).2.nextId = eng.nextId ∧
      (analyze_against_archive cfg eng f).1.phash_layer = none) ∨
    (∃ h, (validate_file f).1 = true ∧ loadAsPil cfg f = some h ∧
      (analyze_against_archive cfg eng f).2.phashArchive =
        eng.phashArchive ++ [(eng.nextId, f.basename, h)] ∧
      (analyze_against_archive cfg eng f).2.nextId = eng.nextId + 1 ∧
      (analyze_against_archive cfg eng f).1.phash_layer =
        some (phashFinding eng.threshold (scanArchive h eng.phashArchive))) := by
  cases hv : (validate_file f).1 with
  | false =>
      rw [analyze_invalid cfg eng f hv]
      exact Or.inl ⟨rfl, rfl, rfl⟩
  | true =>
      cases hr : loadAsPil cfg f with
      | some h =>
          rw [analyze_rendered cfg eng f h hv hr]
          exact Or.inr ⟨h, rfl, rfl, rfl, rfl, rfl⟩
      | none =>
          cases hl : lookupSha f.digest eng.shaArchive with
          | some name =>
              rw [analyze_norender_hit cfg eng f name hv hr hl]
              exact Or.inl ⟨rfl, rfl, rfl⟩
          | none =>
              rw [analyze_norender_miss cfg eng f hv hr hl]
              exact Or.inl ⟨rfl, rfl, rfl⟩

/-- C8: the fingerprint archive is append-only — its size never decreases,
prior entries are preserved, a renderable submission is appended under the
pre-call fresh id (never colliding with archived ids), the reported match
always comes from a pre-existing entry (a document is never its own nearest
neighbor), and after a batch of calls the archive has grown by exactly the
number of validated, renderable submissions. -/
theorem c8_archive_append_only (cfg : Config) (eng : Engine) (f : PFile)
    (files : List PFile) :
    eng.phashArchive.length ≤ (analyze_against_archive cfg eng f).2.phashArchive.length ∧
    (∃ tail, (analyze_against_archive cfg eng f).2.phashArchive =
      eng.phashArchive ++ tail) ∧
    (∀ h, (validate_file f).1 = true → loadAsPil cfg f = some h →
      (analyze_against_archive cfg eng f).2.phashArchive =
        eng.phashArchive ++ [(eng.nextId, f.basename, h)]) ∧
    (Engine.WF eng →
      (∀ e ∈ eng.phashArchive, e.1 ≠ eng.nextId) ∧
      Engine.WF (analyze_against_archive cfg eng f).2) ∧
    (∀ p name, (analyze_against_archive cfg eng f).1.phash_layer = some p →
      p.matched_file = some name → ∃ e ∈ eng.phashArchive, e.2.1 = name) ∧
    (runAll cfg eng files).phashArchive.length =
      eng.phashArchive.length + countRendered cfg files := by
  refine ⟨?_, ?_, ?_, ?_, ?_, runAll_length cfg files eng⟩
  · rcases analyze_phash_cases cfg eng f with ⟨ha, _, _⟩ | ⟨h, _, _, ha, _, _⟩
    · rw [ha]
    · rw [ha]
      simp
  · rcases analyze_phash_cases cfg eng f with ⟨ha, _, _⟩ | ⟨h, _, _, ha, _, _⟩
    · exact ⟨[], by rw [ha]; simp⟩
    · exact ⟨[(eng.nextId, f.basename, h)], ha⟩
  · intro h hv hr
    rw [analyze_rendered cfg eng f h hv hr]
  · intro hwf
    refine ⟨fun e he => Nat.ne_of_lt (hwf e he), ?_⟩
    rcases analyze_phash_cases cfg eng f with ⟨ha, hn, _⟩ | ⟨h, _, _, ha, hn, _⟩
    · intro e he
      rw [ha] at he
      rw [hn]
      exact hwf e he
    · intro e he
      rw [ha] at he
      rw [hn]
      rcases List.mem_append.mp he with hold | hnew
      · exact Nat.lt_succ_of_lt (hwf e hold)
      · rcases List.mem_singleton.mp hnew with rfl
        exact Nat.lt_succ_self _
  · intro p name hp hname
    rcases analyze_phash_cases cfg eng f with ⟨_, _, hnone⟩ | ⟨h, _, _, _, _, hsome⟩
    · rw [hnone] at hp
      cases hp
    · rw [hsome] at hp
      injection hp with hp2
      rcases scanArchive_attain h eng.phashArchive with heq | ⟨e, hmem, h1, _⟩
      · rw [phashFinding_none eng.threshold _ (by rw [heq])] at hp2
        rw [← hp2] at hname
        cases hname
      · rw [phashFinding_some eng.threshold _ e.1 e.2.1 h1] at hp2
        rw [← hp2] at hname
        injection hname with hname2
        exact ⟨e, hmem, hname2⟩

/-- C8 witness: the append-only theorem applied to a renderable submission
on the default engine and a two-element batch. -/
theorem c8_witness :
    (analyze_against_archive cfgNone defaultEngine c8File).2.phashArchive =
      defaultEngine.phashArchive ++ [(defaultEngine.nextId, "x.png", 9)] ∧
    (runAll cfgNone defaultEngine [c8File, c8File]).phashArchive.length =
      defaultEngine.phashArchive.length + countRendered cfgNone [c8File, c8File] :=
  ⟨(c8_archive_append_only cfgNone defaultEngine c8File []).2.2.1 9 rfl rfl,
   (c8_archive_append_only cfgNone defaultEngine c8File [c8File, c8File]).2.2.2.2.2⟩

/-- C9: reported similarity equals Python round(((64 − d) / 64) × 100, 2) of
the reported distance, similarity is monotonically non-increasing in the
distance, the fingerprint fraud flag is exactly distance ≤ threshold, and
the constructor's default threshold is 10 bits. -/
theorem c9_similarity_relation (cfg : Config) (eng : Engine) (f1 f2 : PFile) :
    (∀ r : PairReport, (analyze_files cfg eng f1 f2).1 = Except.ok r →
      r.similarity_percent = pyRound2 (((64 - (r.hamming_distance : ℚ)) / 64) * 100) ∧
      (r.fraud_detected = true ↔ r.hamming_distance ≤ eng.threshold)) ∧
    (∀ d1 d2 : Nat, d1 < d2 → d2 ≤ 64 → similarity d2 ≤ similarity d1) ∧
    (∀ (f : PFile) (p : LayerResult) (d : Nat),
      (analyze_against_archive cfg eng f).1.phash_layer = some p →
      p.hamming_distance = some d →
      p.similarity_percent = pyRound2 (((64 - (d : ℚ)) / 64) * 100) ∧
      (p.fraud_detected = true ↔ d ≤ eng.threshold)) ∧
    defaultEngine.threshold = 10 := by
  refine ⟨?_, ?_, ?_, rfl⟩
  · intro r hr
    cases hr1 : loadAsPil cfg f1 with
    | none => simp [analyze_files, hr1] at hr
    | some h1 =>
        cases hr2 : loadAsPil cfg f2 with
        | none => simp [analyze_files, hr1, hr2] at hr
        | some h2 =>
            simp only [analyze_files, hr1, hr2] at hr
            injection hr with hr3
            subst hr3
            exact ⟨rfl, decide_eq_true_iff⟩
  · intro d1 d2 h12 h64
    rw [similarity_eq d1 (by omega), similarity_eq d2 h64]
    have hmono := natRhe_mono d1 (by omega) d2 (by omega) (Nat.le_of_lt h12)
    gcongr
  · intro f p d hp hd
    rcases analyze_phash_cases cfg eng f with ⟨_, _, hnone⟩ | ⟨h, _, _, _, _, hsome⟩
    · rw [hnone] at hp
      cases hp
    · rw [hsome] at hp
      injection hp with hp2
      rcases scanArchive_attain h eng.phashArchive with heq | ⟨e, _, h1, _⟩
      · rw [phashFinding_none eng.threshold _ (by rw [heq])] at hp2
        rw [← hp2] at hd
        cases hd
      · rw [phashFinding_some eng.threshold _ e.1 e.2.1 h1] at hp2
        rw [← hp2] at hd ⊢
        injection hd with hd2
        rw [← hd2]
        exact ⟨rfl, decide_eq_true_iff⟩

/-- C9 witness: the similarity theorem applied at distances 3 < 5 and to the
default engine's threshold. -/
theorem c9_witness :
    similarity 5 ≤ similarity 3 ∧ defaultEngine.threshold = 10 :=
  ⟨(c9_similarity_relation cfgNone defaultEngine c7FileA c7FileB).2.1 3 5
      (by decide) (by decide),
   (c9_similarity_relation cfgNone defaultEngine c7FileA c7FileB).2.2.2⟩

end ImageHashEngine
